import Mathlib

/-!
Shallow embedding of the `dra-example-driver` command-line programs
(`cmd/set-nas-status/main.go` and `cmd/dra-example-controller/main.go`)
and of the per-node `NodeAllocationState` record protocol they drive,
together with proofs about the embedded definitions.

External collaborators (cobra/viper flag machinery, the Kubernetes REST
client, the HTTP mux) are embedded only at the granularity the programs
observe them: fallible external calls become outcome parameters, cluster
state becomes an explicit store that the record client reads and writes.
-/

set_option autoImplicit false

namespace DraExample

/-! ## Flag/environment binding (`PersistentPreRunE` in both programs)

Both `main.go` files install the same `PersistentPreRunE`: for every
declared flag, if the flag was not changed on the command line and viper
finds an environment variable for it (flag name with hyphens replaced by
underscores, upper-cased by viper's `AutomaticEnv`), the flag is set to
that environment value.  Otherwise the flag keeps its command-line value
or its declared default. -/

/-- A registered pflag: its name, declared default, and the value given on
the command line (`none` when the flag was not passed, i.e. `Changed` is
false). -/
structure PFlag where
  name : String
  defVal : String
  cmdlineVal : Option String
  deriving Repr, DecidableEq

/-- Field `pflag.Flag.Changed`: whether the flag was explicitly set. -/
def flagChanged (f : PFlag) : Bool :=
  f.cmdlineVal.isSome

/-- The value a flag resolves to when read. -/
def flagValue (f : PFlag) : String :=
  match f.cmdlineVal with
  | some v => v
  | none => f.defVal

/-- Go's `strings.ToLower` (per-character; all strings the programs
compare are ASCII, where this is exact). -/
def toLowerStr (s : String) : String :=
  ⟨s.data.map Char.toLower⟩

/-- Go's `strings.ToUpper` (per-character, as above). -/
def toUpperStr (s : String) : String :=
  ⟨s.data.map Char.toUpper⟩

/-- The environment key viper consults for a flag name:
`strings.NewReplacer("-", "_")` applied to the name, then upper-cased by
`AutomaticEnv`. -/
def envKey (name : String) : String :=
  toUpperStr ⟨name.data.map (fun c => if c = '-' then '_' else c)⟩

/-- One iteration of the `cmd.Flags().VisitAll` body in
`PersistentPreRunE`: `if !f.Changed && v.IsSet(f.Name) { cmd.Flags().Set(f.Name, val) }`.
`env` is the process environment (`none` when the variable is unset). -/
def bindEnvToFlag (env : String → Option String) (f : PFlag) : PFlag :=
  if flagChanged f then f
  else
    match env (envKey f.name) with
    | some val => { f with cmdlineVal := some val }
    | none => f

/-! ## Cluster client configuration resolution (`GetClientsetConfig`)

Both programs resolve the REST client configuration the same way:
if the `KUBECONFIG` environment variable is non-empty it overwrites the
`--kubeconfig` flag value; then an empty resolved path selects the
in-cluster configuration and a non-empty path selects the config file.
The external `rest.InClusterConfig` / `clientcmd.BuildConfigFromFlags`
calls can fail; their outcomes are parameters. -/

/-- Where the REST configuration came from. -/
inductive RestConfigSource where
  | inCluster
  | fromFile (kubeconfigPath : String)
  deriving Repr, DecidableEq

/-- Result of `GetClientsetConfig`: the (possibly mutated) value of the
`kubeconfig` flag after the call, and the selected configuration source. -/
structure CSResolution where
  kubeconfigAfter : String
  source : RestConfigSource
  deriving Repr, DecidableEq

namespace SetNasStatus

/-- Function `GetClientsetConfig` from `cmd/set-nas-status/main.go`:
if `KUBECONFIG` is non-empty, `*f.kubeconfig = kubeconfigEnv`; then an
empty `*f.kubeconfig` selects `rest.InClusterConfig()` and a non-empty
one selects `clientcmd.BuildConfigFromFlags("", *f.kubeconfig)`.
`inClusterOk` / `buildOk` are the outcomes of those external calls. -/
def GetClientsetConfig (kubeconfigFlag : String) (kubeconfigEnv : String)
    (inClusterOk : Bool) (buildOk : Bool) : Except String CSResolution :=
  let kubeconfig := if kubeconfigEnv ≠ "" then kubeconfigEnv else kubeconfigFlag
  if kubeconfig = "" then
    if inClusterOk then
      Except.ok { kubeconfigAfter := kubeconfig, source := RestConfigSource.inCluster }
    else
      Except.error "create in-cluster client configuration"
  else
    if buildOk then
      Except.ok { kubeconfigAfter := kubeconfig, source := RestConfigSource.fromFile kubeconfig }
    else
      Except.error "create out-of-cluster client configuration"

end SetNasStatus

namespace Controller

/-- Function `GetClientsetConfig` from `cmd/dra-example-controller/main.go`: the
same resolution as the status-setter's, followed by stamping the
`--kube-api-qps` and `--kube-api-burst` flag values onto the config.
`qps`/`burst` are carried as integers scaled by the caller (their exact
numeric type does not matter to any claim). -/
structure ControllerCSConfig where
  resolution : CSResolution
  qps : Int
  burst : Int
  deriving Repr, DecidableEq

def GetClientsetConfig (kubeconfigFlag : String) (kubeconfigEnv : String)
    (inClusterOk : Bool) (buildOk : Bool) (qps : Int) (burst : Int) :
    Except String ControllerCSConfig :=
  let kubeconfig := if kubeconfigEnv ≠ "" then kubeconfigEnv else kubeconfigFlag
  if kubeconfig = "" then
    if inClusterOk then
      Except.ok { resolution := { kubeconfigAfter := kubeconfig, source := RestConfigSource.inCluster },
                  qps := qps, burst := burst }
    else
      Except.error "create in-cluster client configuration"
  else
    if buildOk then
      Except.ok { resolution := { kubeconfigAfter := kubeconfig, source := RestConfigSource.fromFile kubeconfig },
                  qps := qps, burst := burst }
    else
      Except.error "create out-of-cluster client configuration"

end Controller

/-! ## The NodeAllocationState record and its cluster store

The `nascrd`/`nasclient` packages (`api/example.com/resource/gpu/nas/...`)
are part of the repository but their sources are not available here, so
the record type, its constructor and the client operations are modelled
from the spec.  The cluster store is explicit: a list of records (the
cluster enforces at most one record per (name, namespace) key) together
with a monotone resource-version counter that the store stamps on every
persisted write. -/

/-- Type `metav1.OwnerReference` as built by the status setter. -/
structure OwnerReference where
  apiVersion : String
  kind : String
  name : String
  uid : String
  deriving Repr, DecidableEq

/-- Type `nascrd.NodeAllocationStateConfig`: the identity/owner configuration
a record is constructed from.  (`namespace` is a Lean keyword, hence
`nspace`.) -/
structure NodeAllocationStateConfig where
  name : String
  nspace : String
  owner : OwnerReference
  deriving Repr, DecidableEq

/-- A stored `NodeAllocationState` object: identity, owner reference, the
store-assigned resource version, and the status field (`""` = unset). -/
structure NasRecord where
  name : String
  nspace : String
  owner : OwnerReference
  resourceVersion : Nat
  status : String
  deriving Repr, DecidableEq

/-- The cluster store for `NodeAllocationState` objects. -/
structure Cluster where
  records : List NasRecord
  nextVersion : Nat
  deriving Repr, DecidableEq

/-- Errors the cluster API returns to the record client. -/
inductive Err where
  | conflict
  | alreadyExists
  | notFound
  deriving Repr, DecidableEq

/-- Whether a record has the given composite key. -/
def keyP (name nspace : String) (r : NasRecord) : Bool :=
  r.name == name && r.nspace == nspace

/-- Fetch the record with the given composite key (the cluster guarantees
at most one per key). -/
def findRecord (name nspace : String) (c : Cluster) : Option NasRecord :=
  c.records.find? (keyP name nspace)

/-- Number of stored records with the given composite key. -/
def countKey (name nspace : String) (c : Cluster) : Nat :=
  (c.records.filter (keyP name nspace)).length

/-- Create a record: rejected with `alreadyExists` when a record with the
same key is present; otherwise the stored copy gets the next resource
version.  Returns the stored record and the new store. -/
def createRecord (r : NasRecord) (c : Cluster) : Except Err NasRecord × Cluster :=
  if (findRecord r.name r.nspace c).isSome then
    (Except.error Err.alreadyExists, c)
  else
    let stored := { r with resourceVersion := c.nextVersion }
    (Except.ok stored, { records := stored :: c.records, nextVersion := c.nextVersion + 1 })

/-- Modelled from the spec: `nascrd.NewNodeAllocationState` (not under
`src/`) constructs a new record from the supplied owner/identity
configuration with the status field unset/default. -/
def NewNodeAllocationState (config : NodeAllocationStateConfig) : NasRecord :=
  { name := config.name, nspace := config.nspace, owner := config.owner,
    resourceVersion := 0, status := "" }

/-- Modelled from the spec: `nasclient.Client.GetOrCreate` (not under
`src/`) fetches the record by its composite key; on not-found it
constructs a new record from the supplied configuration and creates it;
a concurrent creator racing on the same key is tolerated by treating
"already exists" as success followed by a fetch.  The racing creator is
the `race` parameter: a record another writer may install between our
failed get and our create. -/
def GetOrCreate (config : NodeAllocationStateConfig) (race : Option NasRecord)
    (c : Cluster) : Except Err NasRecord × Cluster :=
  match findRecord config.name config.nspace c with
  | some r => (Except.ok r, c)
  | none =>
    let c1 := match race with
      | some ir => (createRecord ir c).2
      | none => c
    match createRecord (NewNodeAllocationState config) c1 with
    | (Except.ok stored, c2) => (Except.ok stored, c2)
    | (Except.error Err.alreadyExists, _) =>
      match findRecord config.name config.nspace c1 with
      | some r => (Except.ok r, c1)
      | none => (Except.error Err.notFound, c1)
    | (Except.error e, _) => (Except.error e, c1)

/-- Replace the record(s) matching `upd`'s key by `upd` (the conditional
update's persisted effect). -/
def replaceRecord (upd : NasRecord) (rs : List NasRecord) : List NasRecord :=
  rs.map (fun r => if keyP upd.name upd.nspace r then upd else r)

/-- The stored record after a successful status write: same identity and
owner, new status, the store's next resource version. -/
def updatedRecord (cur : NasRecord) (newStatus : String) (v : Nat) : NasRecord :=
  { cur with status := newStatus, resourceVersion := v }

/-- Modelled from the spec: `nasclient.Client.UpdateStatus` (not under
`src/`) sets the status field of the most recently observed record and
issues a conditional write tied to the observed resource version; a
version mismatch (another writer updated the record concurrently) fails
with `Conflict` and persists nothing. -/
def UpdateStatus (observed : NasRecord) (newStatus : String) (c : Cluster) :
    Except Err Unit × Cluster :=
  match findRecord observed.name observed.nspace c with
  | none => (Except.error Err.notFound, c)
  | some cur =>
    if cur.resourceVersion = observed.resourceVersion then
      (Except.ok (),
        ⟨replaceRecord (updatedRecord cur newStatus c.nextVersion) c.records,
          c.nextVersion + 1⟩)
    else
      (Except.error Err.conflict, c)

/-- A concrete owner reference used to instantiate theorems with
hypotheses on concrete inputs. -/
def sampleOwner : OwnerReference :=
  ⟨"v1", "Node", "node-a", "uid-1"⟩

/-- A concrete stored record. -/
def sampleRecord : NasRecord :=
  ⟨"node-a", "ns", sampleOwner, 3, "NotReady"⟩

/-- A concrete one-record cluster store. -/
def sampleCluster : Cluster :=
  ⟨[sampleRecord], 4⟩

namespace SetNasStatus

/-- The `NodeAllocationStateConfig` built in `RunE` of set-nas-status:
name and namespace from the `NODE_NAME`/`POD_NAMESPACE` environment, and
an owner reference with `APIVersion: "v1"`, `Kind: "Node"`, the node's
name, and the UID of the `Node` object fetched from the cluster. -/
def crdConfigOf (nodeName podNamespace nodeUID : String) : NodeAllocationStateConfig :=
  { name := nodeName, nspace := podNamespace,
    owner := { apiVersion := "v1", kind := "Node", name := nodeName, uid := nodeUID } }

end SetNasStatus

/-! ## The instrumented status-update cycle and its retry loop

`SetStatus` wraps `GetOrCreate` + `UpdateStatus` in
`retry.RetryOnConflict`.  To reason about which record version each
conditional write is tied to, the two client calls are instrumented to
emit events carrying the resource versions they observe and use. -/

/-- Events observable in a `SetStatus` run: `fetch v` — `GetOrCreate`
returned the record at resource version `v`; `condWrite v` — a
conditional `UpdateStatus` write was issued tied to observed version `v`. -/
inductive SSEvent where
  | fetch (v : Nat)
  | condWrite (v : Nat)
  deriving Repr, DecidableEq

/-- Instrumented `GetOrCreate`, also reporting the fetch event with the version of the
record it resolved. -/
def GetOrCreateT (config : NodeAllocationStateConfig) (race : Option NasRecord)
    (c : Cluster) : (Except Err NasRecord × Cluster) × List SSEvent :=
  match GetOrCreate config race c with
  | (Except.ok r, c1) => ((Except.ok r, c1), [SSEvent.fetch r.resourceVersion])
  | (Except.error e, c1) => ((Except.error e, c1), [])

/-- Instrumented `UpdateStatus`, also reporting the conditional write tied to the
observed record's version. -/
def UpdateStatusT (observed : NasRecord) (newStatus : String) (c : Cluster) :
    (Except Err Unit × Cluster) × List SSEvent :=
  (UpdateStatus observed newStatus c, [SSEvent.condWrite observed.resourceVersion])

/-- The closure passed to `retry.RetryOnConflict` in `SetStatus`
(`cmd/set-nas-status/main.go`): `client.GetOrCreate()` then, on success,
`client.UpdateStatus(*config.flags.status)` on the record just fetched.
`race` is a possible concurrent creator during the get-or-create; `mid`
is interference by other writers between the fetch and the write (this is
what makes the conditional write conflict). -/
def setStatusAttempt (config : NodeAllocationStateConfig) (status : String)
    (race : Option NasRecord) (mid : Cluster → Cluster) (c : Cluster) :
    Except Err Unit × Cluster × List SSEvent :=
  match GetOrCreateT config race c with
  | ((Except.error e, c1), t) => (Except.error e, c1, t)
  | ((Except.ok r, c1), t) =>
    match UpdateStatusT r status (mid c1) with
    | ((res, c2), t2) => (res, c2, t ++ t2)

/-- Function `retry.RetryOnConflict` (k8s.io/client-go/util/retry), an external
collaborator modelled from its documented contract: run the function; on
a `Conflict` error run it again, up to `steps` runs in total (the backoff
sleeps are irrelevant to every claim); success or any other error stops
the loop; an exhausted budget surfaces the last `Conflict`.  The attempt
index is threaded through so each attempt can meet different concurrent
interference. -/
def RetryOnConflict (fn : Nat → Cluster → Except Err Unit × Cluster × List SSEvent) :
    Nat → Nat → Cluster → Except Err Unit × Cluster × List SSEvent
  | 0, _, c => (Except.error Err.conflict, c, [])
  | steps + 1, k, c =>
    match fn k c with
    | (Except.ok u, c1, t) => (Except.ok u, c1, t)
    | (Except.error Err.conflict, c1, t) =>
      match RetryOnConflict fn steps (k + 1) c1 with
      | (res, c2, t2) => (res, c2, t ++ t2)
    | (Except.error e, c1, t) => (Except.error e, c1, t)

namespace SetNasStatus

/-- Function `SetStatus` (`cmd/set-nas-status/main.go`): one GetOrCreate +
UpdateStatus cycle wrapped in `retry.RetryOnConflict(retry.DefaultRetry,
...)`; `steps` is the retry budget of the policy. -/
def SetStatus (config : NodeAllocationStateConfig) (status : String)
    (races : Nat → Option NasRecord) (mids : Nat → Cluster → Cluster)
    (steps : Nat) (c : Cluster) : Except Err Unit × Cluster × List SSEvent :=
  RetryOnConflict (fun k c0 => setStatusAttempt config status (races k) (mids k) c0)
    steps 0 c

end SetNasStatus

/-- Traces in which every conditional write is issued immediately after a
fetch, and is tied to exactly the version that fetch returned: no write
ever uses a version observed earlier than its own attempt's fetch. -/
inductive FreshWrites : List SSEvent → Prop where
  | nil : FreshWrites []
  | fetchOnly (v : Nat) (t : List SSEvent) :
      FreshWrites t → FreshWrites (SSEvent.fetch v :: t)
  | fetchWrite (v : Nat) (t : List SSEvent) :
      FreshWrites t → FreshWrites (SSEvent.fetch v :: SSEvent.condWrite v :: t)

/-! ## The set-nas-status command: flags, validation, RunE, main -/

/-- Modelled from the spec: the canonical Ready value of the
`NodeAllocationState` status enum (`nascrd`, not under `src/`). -/
def NodeAllocationStateStatusReady : String := "Ready"

/-- Modelled from the spec: the canonical NotReady value of the
`NodeAllocationState` status enum (`nascrd`, not under `src/`). -/
def NodeAllocationStateStatusNotReady : String := "NotReady"

namespace SetNasStatus

/-- The `--status` flag as declared in `AddFlags`: default `""`, not
passed on the command line. -/
def statusFlag : PFlag :=
  { name := "status", defVal := "", cmdlineVal := none }

/-- Function `ValidateFlags`: a switch on `strings.ToLower(*f.status)` against the
lower-cased canonical constants, writing the canonical value back on a
match and rejecting anything else with an `unknown status` error. -/
def ValidateFlags (status : String) : Except String String :=
  if toLowerStr status = toLowerStr NodeAllocationStateStatusReady then
    Except.ok NodeAllocationStateStatusReady
  else if toLowerStr status = toLowerStr NodeAllocationStateStatusNotReady then
    Except.ok NodeAllocationStateStatusNotReady
  else
    Except.error ("unknown status: " ++ status)

/-- The externally visible steps `RunE` performs, in program order. -/
inductive CliEvent where
  | validateFlags
  | getClientsetConfig
  | newCoreClient
  | newExampleClient
  | getNode
  | setStatus
  deriving Repr, DecidableEq

/-- The `Node` object fetched for the owner reference. -/
structure NodeObj where
  name : String
  uid : String
  deriving Repr, DecidableEq

/-- Errors `RunE` can return; the wrapping prefixes of its `fmt.Errorf`
calls are applied by `renderError`. -/
inductive CliError where
  | validate (msg : String)
  | clientConfig (msg : String)
  | coreClient
  | exampleClient
  | getNode (msg : String)
  | status (e : Err)
  deriving Repr, DecidableEq

/-- Outcomes of the external collaborators `RunE` calls, the ambient
environment the process observes, and the cluster state. -/
structure CliWorld where
  node_name : String
  pod_namespace : String
  kubeconfigEnv : String
  inClusterOk : Bool
  buildOk : Bool
  coreClientOk : Bool
  exampleClientOk : Bool
  nodeLookup : Except String NodeObj
  cluster : Cluster
  races : Nat → Option NasRecord
  mids : Nat → Cluster → Cluster
  retrySteps : Nat

/-- Function `RunE` of set-nas-status: validate the flags, resolve the client
configuration, build the two clients, fetch the `Node`, build the record
configuration, and run `SetStatus`; each step runs only if the previous
one succeeded.  Returns the command result, the ordered trace of steps
performed, and the final cluster state. -/
def RunE (statusFlagVal kubeconfigFlag : String) (w : CliWorld) :
    Except CliError Unit × List CliEvent × Cluster :=
  match ValidateFlags statusFlagVal with
  | Except.error e =>
    (Except.error (CliError.validate e), [CliEvent.validateFlags], w.cluster)
  | Except.ok normalized =>
    match GetClientsetConfig kubeconfigFlag w.kubeconfigEnv w.inClusterOk w.buildOk with
    | Except.error e =>
      (Except.error (CliError.clientConfig e),
        [CliEvent.validateFlags, CliEvent.getClientsetConfig], w.cluster)
    | Except.ok _ =>
      if w.coreClientOk = false then
        (Except.error CliError.coreClient,
          [CliEvent.validateFlags, CliEvent.getClientsetConfig,
            CliEvent.newCoreClient], w.cluster)
      else if w.exampleClientOk = false then
        (Except.error CliError.exampleClient,
          [CliEvent.validateFlags, CliEvent.getClientsetConfig,
            CliEvent.newCoreClient, CliEvent.newExampleClient], w.cluster)
      else
        match w.nodeLookup with
        | Except.error e =>
          (Except.error (CliError.getNode e),
            [CliEvent.validateFlags, CliEvent.getClientsetConfig,
              CliEvent.newCoreClient, CliEvent.newExampleClient,
              CliEvent.getNode], w.cluster)
        | Except.ok node =>
          match SetStatus (crdConfigOf w.node_name w.pod_namespace node.uid)
              normalized w.races w.mids w.retrySteps w.cluster with
          | (Except.ok _, c2, _) =>
            (Except.ok (),
              [CliEvent.validateFlags, CliEvent.getClientsetConfig,
                CliEvent.newCoreClient, CliEvent.newExampleClient,
                CliEvent.getNode, CliEvent.setStatus], c2)
          | (Except.error e, c2, _) =>
            (Except.error (CliError.status e),
              [CliEvent.validateFlags, CliEvent.getClientsetConfig,
                CliEvent.newCoreClient, CliEvent.newExampleClient,
                CliEvent.getNode, CliEvent.setStatus], c2)

/-- Error text as printed by `main` via `%v`: the `fmt.Errorf` wrapping
prefixes of `RunE` (the text of the wrapped external client-construction
errors is abstracted away). -/
def renderError : CliError → String
  | CliError.validate m => "validate flags: " ++ m
  | CliError.clientConfig m => "create client configuration: " ++ m
  | CliError.coreClient => "create core client: "
  | CliError.exampleClient => "create example.com client: "
  | CliError.getNode m => "get node object: " ++ m
  | CliError.status Err.conflict => "Conflict"
  | CliError.status Err.alreadyExists => "AlreadyExists"
  | CliError.status Err.notFound => "NotFound"

/-- What a process run leaves behind: the lines printed to stdout and the
process exit status. -/
structure MainOutcome where
  printed : List String
  exitCode : Nat
  deriving Repr, DecidableEq

/-- Function `main` of set-nas-status: `command.Execute()`, then
`fmt.Printf("Error: %v\n", err)` when the command failed — and nothing
else: there is no `os.Exit` call, so `main` returns normally and the
process exit status is 0 whether or not the command failed. -/
def mainSetNasStatus (statusFlagVal kubeconfigFlag : String) (w : CliWorld) : MainOutcome :=
  match (RunE statusFlagVal kubeconfigFlag w).1 with
  | Except.ok _ => { printed := [], exitCode := 0 }
  | Except.error e => { printed := ["Error: " ++ renderError e], exitCode := 0 }

/-- A concrete world where every external call succeeds. -/
def sampleWorld : CliWorld :=
  { node_name := "node-a", pod_namespace := "ns", kubeconfigEnv := "",
    inClusterOk := true, buildOk := true, coreClientOk := true,
    exampleClientOk := true, nodeLookup := Except.ok ⟨"node-a", "uid-1"⟩,
    cluster := sampleCluster, races := fun _ => none,
    mids := fun _ => fun c0 => c0, retrySteps := 5 }

end SetNasStatus

namespace Controller

/-! ## The controller's diagnostics HTTP surface -/

/-- A handler registration on the HTTP mux, tagged with the configured
flag path it was registered under.  (Go's `path.Join("/", p)`
normalization of the URL strings is not modelled: no claim concerns the
concrete path text, only which handlers are registered.) -/
inductive Handler where
  | metrics (flagPath : String)
  | pprofIndex (flagPath : String)
  | pprofCmdline (flagPath : String)
  | pprofProfile (flagPath : String)
  | pprofSymbol (flagPath : String)
  | pprofTrace (flagPath : String)
  deriving Repr, DecidableEq

/-- The observable diagnostics surface: registered handlers and the
address a listener was opened on, if any. -/
structure DiagSurface where
  handlers : List Handler
  listenerAddr : Option String
  deriving Repr, DecidableEq

/-- Function `SetupHTTPEndpoint` (`cmd/dra-example-controller/main.go`): register
the metrics handler when `--metrics-path` is non-empty, the five pprof
handlers when `--pprof-path` is non-empty — each check independent of the
other — then listen on `--http-endpoint` (the happy path of `net.Listen`
is modelled; a listen failure aborts `RunE` and registers nothing more). -/
def SetupHTTPEndpoint (metricsPath profilePath httpEndpoint : String) : DiagSurface :=
  let hs1 := if metricsPath ≠ "" then [Handler.metrics metricsPath] else []
  let hs2 :=
    if profilePath ≠ "" then
      [Handler.pprofIndex profilePath, Handler.pprofCmdline profilePath,
        Handler.pprofProfile profilePath, Handler.pprofSymbol profilePath,
        Handler.pprofTrace profilePath]
    else []
  { handlers := hs1 ++ hs2, listenerAddr := some httpEndpoint }

/-- The diagnostics surface the controller's `RunE` sets up:
`SetupHTTPEndpoint` is called only when `--http-endpoint` is non-empty;
otherwise no listener is opened and no handler is registered. -/
def RunEDiagnostics (httpEndpoint metricsPath profilePath : String) : DiagSurface :=
  if httpEndpoint ≠ "" then SetupHTTPEndpoint metricsPath profilePath httpEndpoint
  else { handlers := [], listenerAddr := none }

/-- Whether a registration is the metrics handler. -/
def isMetricsHandler : Handler → Bool
  | Handler.metrics _ => true
  | _ => false

/-- Whether a registration is one of the pprof handlers. -/
def isPprofHandler : Handler → Bool
  | Handler.metrics _ => false
  | _ => true

end Controller

end DraExample

open DraExample

/-! ## Claim C8: flag > environment > default precedence -/

/-- Claim C8: after the `PersistentPreRunE` environment binding, a flag's
value follows the precedence explicit command-line value > environment
variable (same name, hyphens mapped to underscores) > declared default. -/
theorem C8_flag_env_default_precedence (env : String → Option String) (f : PFlag) :
    flagValue (bindEnvToFlag env f) =
      match f.cmdlineVal with
      | some v => v
      | none =>
        match env (envKey f.name) with
        | some e => e
        | none => f.defVal := by
  unfold bindEnvToFlag flagChanged flagValue
  cases h : f.cmdlineVal with
  | some v => simp [h]
  | none =>
    cases henv : env (envKey f.name) with
    | some e => simp [h, henv]
    | none => simp [h, henv]

/-! ## Claim C4: kubeconfig resolution order

The claim states the explicit `--kubeconfig` flag wins over the
`KUBECONFIG` environment variable.  The code does the opposite: a
non-empty `KUBECONFIG` overwrites the flag unconditionally, so the
environment path is used even when the flag was explicitly supplied. -/

/-- Claim C4, counterexample: with `--kubeconfig=/flag/path` and
`KUBECONFIG=/env/path`, the path used is the environment one, not the
flag's, refuting "for every input where the flag is non-empty, the flag's
path is the one used, regardless of whether KUBECONFIG is also set". -/
theorem C4_counterexample_env_overrides_flag :
    SetNasStatus.GetClientsetConfig "/flag/path" "/env/path" true true =
      Except.ok { kubeconfigAfter := "/env/path",
                  source := RestConfigSource.fromFile "/env/path" } ∧
    RestConfigSource.fromFile "/env/path" ≠ RestConfigSource.fromFile "/flag/path" := by
  constructor
  · rfl
  · decide

/-- Claim C4, amended: cluster client configuration resolution prefers the
environment-supplied `KUBECONFIG` path over the explicit `--kubeconfig`
flag (a non-empty environment value overwrites the flag), uses the flag's
path only when the environment value is empty, and falls back to
in-cluster ambient credentials only when both are empty.  Both programs'
`GetClientsetConfig` functions behave this way (on the happy path of the
external config constructors). -/
theorem C4_amended_env_then_flag_then_incluster
    (flag env : String) (qps burst : Int) :
    SetNasStatus.GetClientsetConfig flag env true true =
      Except.ok { kubeconfigAfter := if env ≠ "" then env else flag,
                  source :=
                    if env ≠ "" then RestConfigSource.fromFile env
                    else if flag ≠ "" then RestConfigSource.fromFile flag
                    else RestConfigSource.inCluster } ∧
    Controller.GetClientsetConfig flag env true true qps burst =
      Except.ok { resolution := { kubeconfigAfter := if env ≠ "" then env else flag,
                                  source :=
                                    if env ≠ "" then RestConfigSource.fromFile env
                                    else if flag ≠ "" then RestConfigSource.fromFile flag
                                    else RestConfigSource.inCluster },
                  qps := qps, burst := burst } := by
  unfold SetNasStatus.GetClientsetConfig Controller.GetClientsetConfig
  by_cases henv : env = ""
  · by_cases hflag : flag = "" <;> simp [henv, hflag]
  · simp [henv]

/-! ## Helper lemmas about the record store -/

/-- After replacing every `p`-record by `upd` (itself a `p`-record), the
first `p`-record found is `upd`, provided one was found before. -/
theorem find?_map_if (p : NasRecord → Bool) (upd : NasRecord) (hupd : p upd = true)
    (rs : List NasRecord) (hsome : (rs.find? p).isSome = true) :
    (rs.map (fun r => if p r then upd else r)).find? p = some upd := by
  induction rs with
  | nil => simp at hsome
  | cons a tl ih =>
    cases hpa : p a with
    | true => simp [hpa, hupd]
    | false =>
      rw [List.find?_cons_of_neg _ (by simp [hpa])] at hsome
      simp only [List.map_cons, hpa, Bool.false_eq_true, if_false]
      rw [List.find?_cons_of_neg _ (by simp [hpa])]
      exact ih hsome

/-- Replacing `p`-records by `upd` leaves the non-`p` records untouched. -/
theorem filter_not_map_if (p : NasRecord → Bool) (upd : NasRecord) (hupd : p upd = true)
    (rs : List NasRecord) :
    (rs.map (fun r => if p r then upd else r)).filter (fun r => !(p r)) =
      rs.filter (fun r => !(p r)) := by
  induction rs with
  | nil => rfl
  | cons a tl ih =>
    cases hpa : p a with
    | true => simp [hpa, hupd, ih]
    | false => simp [hpa, ih]

/-! ## Claim C2: conditional status write applies or reports Conflict -/

/-- Claim C2: an `UpdateStatus` call made with an observed record (whose
key is present in the store) either succeeds and performs exactly one
persisted write — the keyed record now carries the new status, every
record with a different key is unchanged — or, when the stored version no
longer matches the observed one, fails with `Conflict` and leaves the
store exactly as it was; no other outcome is possible. -/
theorem C2_updatestatus_applies_or_conflicts
    (observed : NasRecord) (newStatus : String) (c : Cluster) (cur : NasRecord)
    (hfound : findRecord observed.name observed.nspace c = some cur) :
    (cur.resourceVersion = observed.resourceVersion ∧
      (UpdateStatus observed newStatus c).1 = Except.ok () ∧
      findRecord observed.name observed.nspace (UpdateStatus observed newStatus c).2 =
        some (updatedRecord cur newStatus c.nextVersion) ∧
      (UpdateStatus observed newStatus c).2.records.filter
          (fun r => !(keyP observed.name observed.nspace r)) =
        c.records.filter (fun r => !(keyP observed.name observed.nspace r)))
    ∨ (cur.resourceVersion ≠ observed.resourceVersion ∧
      (UpdateStatus observed newStatus c).1 = Except.error Err.conflict ∧
      (UpdateStatus observed newStatus c).2 = c) := by
  have hfind : c.records.find? (keyP observed.name observed.nspace) = some cur := by
    simpa [findRecord] using hfound
  have hkey : keyP observed.name observed.nspace cur = true := List.find?_some hfind
  have hns : cur.name = observed.name ∧ cur.nspace = observed.nspace := by
    simpa [keyP] using hkey
  obtain ⟨hn, hs⟩ := hns
  have hres : UpdateStatus observed newStatus c =
      if cur.resourceVersion = observed.resourceVersion then
        (Except.ok (),
          ⟨replaceRecord (updatedRecord cur newStatus c.nextVersion) c.records,
            c.nextVersion + 1⟩)
      else (Except.error Err.conflict, c) := by
    unfold UpdateStatus
    rw [hfound]
  by_cases hv : cur.resourceVersion = observed.resourceVersion
  · rw [if_pos hv] at hres
    have hupdP : keyP observed.name observed.nspace
        (updatedRecord cur newStatus c.nextVersion) = true := by
      simp [keyP, updatedRecord, hn, hs]
    have hrepl : replaceRecord (updatedRecord cur newStatus c.nextVersion) c.records =
        c.records.map (fun r =>
          if keyP observed.name observed.nspace r then
            updatedRecord cur newStatus c.nextVersion
          else r) := by
      unfold replaceRecord
      have e1 : (updatedRecord cur newStatus c.nextVersion).name = observed.name := hn
      have e2 : (updatedRecord cur newStatus c.nextVersion).nspace = observed.nspace := hs
      rw [e1, e2]
    refine Or.inl ⟨hv, ?_, ?_, ?_⟩
    · rw [hres]
    · rw [hres]
      unfold findRecord
      show (replaceRecord (updatedRecord cur newStatus c.nextVersion) c.records).find?
          (keyP observed.name observed.nspace) = _
      rw [hrepl]
      exact find?_map_if _ _ hupdP c.records (by rw [hfind]; rfl)
    · rw [hres]
      show (replaceRecord (updatedRecord cur newStatus c.nextVersion) c.records).filter
          (fun r => !(keyP observed.name observed.nspace r)) = _
      rw [hrepl]
      exact filter_not_map_if _ _ hupdP c.records
  · rw [if_neg hv] at hres
    exact Or.inr ⟨hv, by rw [hres], by rw [hres]⟩

/-- Claim C2 witness: the concrete one-record store, observed at the
matching version: the hypothesis holds and the dichotomy instantiates. -/
theorem C2_updatestatus_applies_or_conflicts_witness :
    findRecord "node-a" "ns" sampleCluster = some sampleRecord ∧
    ((sampleRecord.resourceVersion = sampleRecord.resourceVersion ∧
      (UpdateStatus sampleRecord "Ready" sampleCluster).1 = Except.ok () ∧
      findRecord "node-a" "ns" (UpdateStatus sampleRecord "Ready" sampleCluster).2 =
        some (updatedRecord sampleRecord "Ready" sampleCluster.nextVersion) ∧
      (UpdateStatus sampleRecord "Ready" sampleCluster).2.records.filter
          (fun r => !(keyP "node-a" "ns" r)) =
        sampleCluster.records.filter (fun r => !(keyP "node-a" "ns" r)))
    ∨ (sampleRecord.resourceVersion ≠ sampleRecord.resourceVersion ∧
      (UpdateStatus sampleRecord "Ready" sampleCluster).1 = Except.error Err.conflict ∧
      (UpdateStatus sampleRecord "Ready" sampleCluster).2 = sampleCluster)) := by
  have hfound : findRecord "node-a" "ns" sampleCluster = some sampleRecord := by
    simp [findRecord, sampleCluster, sampleRecord, keyP]
  have h := C2_updatestatus_applies_or_conflicts sampleRecord "Ready" sampleCluster
    sampleRecord (by simpa [sampleRecord] using hfound)
  exact ⟨hfound, by simpa [sampleRecord] using h⟩

/-! ## Counting lemmas for the uniqueness invariant -/

/-- No record with the key is found: the key count is zero. -/
theorem countKey_zero_of_find_none (n ns : String) (c : Cluster)
    (h : findRecord n ns c = none) : countKey n ns c = 0 := by
  unfold findRecord at h
  unfold countKey
  have hall := List.find?_eq_none.mp h
  have : c.records.filter (keyP n ns) = [] := by
    rw [List.filter_eq_nil_iff]
    intro a ha
    simpa using hall a ha
  rw [this]
  rfl

/-- A record with the key is found and the store satisfies the
at-most-one-per-key invariant: the key count is exactly one. -/
theorem countKey_one_of_find_some (n ns : String) (c : Cluster) (cur : NasRecord)
    (h : findRecord n ns c = some cur) (huniq : countKey n ns c ≤ 1) :
    countKey n ns c = 1 := by
  unfold findRecord at h
  have hmem : cur ∈ c.records := List.mem_of_find?_eq_some h
  have hpred : keyP n ns cur = true := List.find?_some h
  have hmemf : cur ∈ c.records.filter (keyP n ns) := List.mem_filter.mpr ⟨hmem, hpred⟩
  have hpos : 0 < countKey n ns c := by
    unfold countKey
    exact List.length_pos.mpr (List.ne_nil_of_mem hmemf)
  omega

/-- Creating on an occupied key: `createRecord` is rejected and changes nothing. -/
theorem createRecord_exists (r : NasRecord) (c : Cluster)
    (h : (findRecord r.name r.nspace c).isSome = true) :
    createRecord r c = (Except.error Err.alreadyExists, c) := by
  unfold createRecord
  rw [if_pos h]

/-- Creating on a free key: `createRecord` stores the record at the next version. -/
theorem createRecord_fresh (r : NasRecord) (c : Cluster)
    (h : (findRecord r.name r.nspace c).isSome = false) :
    createRecord r c = (Except.ok ({ r with resourceVersion := c.nextVersion }),
      ⟨({ r with resourceVersion := c.nextVersion }) :: c.records, c.nextVersion + 1⟩) := by
  unfold createRecord
  rw [if_neg (by simp [h])]

/-! ## Claim C3: GetOrCreate is idempotent -/

/-- Claim C3: starting from any store satisfying the cluster's
at-most-one-record-per-key guarantee, `GetOrCreate` succeeds — even when a
concurrent creator races on the same key — leaves exactly one record for
the node's key, and calling it again returns the very same record and
changes nothing. -/
theorem C3_getorcreate_idempotent (config : NodeAllocationStateConfig)
    (race : Option NasRecord) (c : Cluster)
    (huniq : countKey config.name config.nspace c ≤ 1) :
    ∃ r1 c1, GetOrCreate config race c = (Except.ok r1, c1) ∧
      countKey config.name config.nspace c1 = 1 ∧
      GetOrCreate config none c1 = (Except.ok r1, c1) := by
  cases hf : findRecord config.name config.nspace c with
  | some r =>
    refine ⟨r, c, ?_, ?_, ?_⟩
    · unfold GetOrCreate
      rw [hf]
    · exact countKey_one_of_find_some _ _ _ _ hf huniq
    · unfold GetOrCreate
      rw [hf]
  | none =>
    have hf' : c.records.find? (keyP config.name config.nspace) = none := by
      simpa [findRecord] using hf
    have hc0 : countKey config.name config.nspace c = 0 :=
      countKey_zero_of_find_none _ _ _ hf
    have hfilter : c.records.filter (keyP config.name config.nspace) = [] :=
      List.length_eq_zero.mp hc0
    cases race with
    | none =>
      refine ⟨⟨config.name, config.nspace, config.owner, c.nextVersion, ""⟩,
        ⟨⟨config.name, config.nspace, config.owner, c.nextVersion, ""⟩ :: c.records,
          c.nextVersion + 1⟩, ?_, ?_, ?_⟩
      · simp [GetOrCreate, createRecord, NewNodeAllocationState, findRecord, hf']
      · simp [countKey, List.filter_cons, keyP, hfilter]
      · unfold GetOrCreate
        rw [show findRecord config.name config.nspace
            (⟨⟨config.name, config.nspace, config.owner, c.nextVersion, ""⟩ :: c.records,
              c.nextVersion + 1⟩ : Cluster) =
            some ⟨config.name, config.nspace, config.owner, c.nextVersion, ""⟩ from
          List.find?_cons_of_pos _ (by simp [keyP])]
    | some ir =>
      cases hir : (findRecord ir.name ir.nspace c).isSome with
      | true =>
        have hcr : createRecord ir c = (Except.error Err.alreadyExists, c) :=
          createRecord_exists ir c hir
        have hup : (findRecord (NewNodeAllocationState config).name
            (NewNodeAllocationState config).nspace c).isSome = false := by
          show (findRecord config.name config.nspace c).isSome = false
          rw [hf]
          rfl
        have hcr2 := createRecord_fresh (NewNodeAllocationState config) c hup
        simp only [NewNodeAllocationState] at hcr2
        refine ⟨⟨config.name, config.nspace, config.owner, c.nextVersion, ""⟩,
          ⟨⟨config.name, config.nspace, config.owner, c.nextVersion, ""⟩ :: c.records,
            c.nextVersion + 1⟩, ?_, ?_, ?_⟩
        · simp only [GetOrCreate, hf, hcr, NewNodeAllocationState, hcr2]
        · simp [countKey, List.filter_cons, keyP, hfilter]
        · unfold GetOrCreate
          rw [show findRecord config.name config.nspace
              (⟨⟨config.name, config.nspace, config.owner, c.nextVersion, ""⟩ :: c.records,
                c.nextVersion + 1⟩ : Cluster) =
              some ⟨config.name, config.nspace, config.owner, c.nextVersion, ""⟩ from
            List.find?_cons_of_pos _ (by simp [keyP])]
      | false =>
        have hcr : createRecord ir c =
            (Except.ok ({ ir with resourceVersion := c.nextVersion }),
              ⟨({ ir with resourceVersion := c.nextVersion }) :: c.records,
                c.nextVersion + 1⟩) := by
          unfold createRecord
          rw [hir]
          rfl
        cases hk : keyP config.name config.nspace ({ ir with resourceVersion := c.nextVersion }) with
        | true =>
          refine ⟨({ ir with resourceVersion := c.nextVersion }),
            ⟨({ ir with resourceVersion := c.nextVersion }) :: c.records,
              c.nextVersion + 1⟩, ?_, ?_, ?_⟩
          · have hfind1 : findRecord config.name config.nspace
                (⟨({ ir with resourceVersion := c.nextVersion }) :: c.records,
                  c.nextVersion + 1⟩ : Cluster) =
                some ({ ir with resourceVersion := c.nextVersion }) :=
              List.find?_cons_of_pos _ hk
            have hup1 : (findRecord (NewNodeAllocationState config).name
                (NewNodeAllocationState config).nspace
                (⟨({ ir with resourceVersion := c.nextVersion }) :: c.records,
                  c.nextVersion + 1⟩ : Cluster)).isSome = true := by
              show (findRecord config.name config.nspace
                (⟨({ ir with resourceVersion := c.nextVersion }) :: c.records,
                  c.nextVersion + 1⟩ : Cluster)).isSome = true
              rw [hfind1]
              rfl
            have hcr2 := createRecord_exists (NewNodeAllocationState config)
              (⟨({ ir with resourceVersion := c.nextVersion }) :: c.records,
                c.nextVersion + 1⟩ : Cluster) hup1
            simp only [GetOrCreate, hf, hcr, hcr2, hfind1]
          · simp [countKey, List.filter_cons, hk, hfilter]
          · unfold GetOrCreate
            rw [show findRecord config.name config.nspace
                (⟨({ ir with resourceVersion := c.nextVersion }) :: c.records,
                  c.nextVersion + 1⟩ : Cluster) =
                some ({ ir with resourceVersion := c.nextVersion }) from
              List.find?_cons_of_pos _ hk]
        | false =>
          have hfind1 : findRecord config.name config.nspace
              (⟨({ ir with resourceVersion := c.nextVersion }) :: c.records,
                c.nextVersion + 1⟩ : Cluster) = none := by
            show (({ ir with resourceVersion := c.nextVersion }) :: c.records).find?
              (keyP config.name config.nspace) = none
            rw [List.find?_cons_of_neg _ (by simp [hk])]
            exact hf'
          have hup1 : (findRecord (NewNodeAllocationState config).name
              (NewNodeAllocationState config).nspace
              (⟨({ ir with resourceVersion := c.nextVersion }) :: c.records,
                c.nextVersion + 1⟩ : Cluster)).isSome = false := by
            show (findRecord config.name config.nspace
              (⟨({ ir with resourceVersion := c.nextVersion }) :: c.records,
                c.nextVersion + 1⟩ : Cluster)).isSome = false
            rw [hfind1]
            rfl
          have hcr2 := createRecord_fresh (NewNodeAllocationState config)
            (⟨({ ir with resourceVersion := c.nextVersion }) :: c.records,
              c.nextVersion + 1⟩ : Cluster) hup1
          simp only [NewNodeAllocationState] at hcr2
          refine ⟨⟨config.name, config.nspace, config.owner, c.nextVersion + 1, ""⟩,
            ⟨⟨config.name, config.nspace, config.owner, c.nextVersion + 1, ""⟩ ::
                ({ ir with resourceVersion := c.nextVersion }) :: c.records,
              c.nextVersion + 2⟩, ?_, ?_, ?_⟩
          · simp only [GetOrCreate, hf, hcr, NewNodeAllocationState, hcr2]
          · simp only [countKey, List.filter_cons, hk, Bool.false_eq_true, if_false]
            simp [countKey, List.filter_cons, keyP, hfilter]
          · unfold GetOrCreate
            rw [show findRecord config.name config.nspace
                (⟨⟨config.name, config.nspace, config.owner, c.nextVersion + 1, ""⟩ ::
                    ({ ir with resourceVersion := c.nextVersion }) :: c.records,
                  c.nextVersion + 2⟩ : Cluster) =
                some ⟨config.name, config.nspace, config.owner, c.nextVersion + 1, ""⟩ from
              List.find?_cons_of_pos _ (by simp [keyP])]

/-- Claim C3 witness: an empty store and a concurrent creator racing on
the same key — the uniqueness hypothesis holds and the conclusion
instantiates. -/
theorem C3_getorcreate_idempotent_witness :
    countKey "node-a" "ns" ⟨[], 5⟩ ≤ 1 ∧
    (∃ r1 c1, GetOrCreate (SetNasStatus.crdConfigOf "node-a" "ns" "uid-1")
        (some sampleRecord) ⟨[], 5⟩ = (Except.ok r1, c1) ∧
      countKey "node-a" "ns" c1 = 1 ∧
      GetOrCreate (SetNasStatus.crdConfigOf "node-a" "ns" "uid-1") none c1 =
        (Except.ok r1, c1)) :=
  ⟨by decide,
    C3_getorcreate_idempotent (SetNasStatus.crdConfigOf "node-a" "ns" "uid-1")
      (some sampleRecord) ⟨[], 5⟩ (by decide)⟩

/-! ## Claim C7: the created record's owner reference and status -/

/-- Claim C7: when no record exists for the node's key, the get-or-create
path creates a record whose owner reference is exactly (Kind `Node`,
APIVersion `v1`, the node's name, the fetched node's UID) — the identity
`RunE` supplies via `crdConfigOf` — and whose status field is unset;
the created record is the one persisted for the key. -/
theorem C7_created_record_owner_matches_node
    (nodeName podNamespace nodeUID : String) (c : Cluster)
    (habsent : findRecord nodeName podNamespace c = none) :
    ∃ r c', GetOrCreate (SetNasStatus.crdConfigOf nodeName podNamespace nodeUID) none c =
        (Except.ok r, c') ∧
      r.owner = ⟨"v1", "Node", nodeName, nodeUID⟩ ∧
      r.status = "" ∧
      findRecord nodeName podNamespace c' = some r := by
  have habs' : c.records.find? (keyP nodeName podNamespace) = none := by
    simpa [findRecord] using habsent
  refine ⟨⟨nodeName, podNamespace, ⟨"v1", "Node", nodeName, nodeUID⟩, c.nextVersion, ""⟩,
    ⟨⟨nodeName, podNamespace, ⟨"v1", "Node", nodeName, nodeUID⟩, c.nextVersion, ""⟩ ::
        c.records, c.nextVersion + 1⟩, ?_, rfl, rfl, ?_⟩
  · simp [GetOrCreate, SetNasStatus.crdConfigOf, NewNodeAllocationState, createRecord,
      findRecord, habs']
  · exact List.find?_cons_of_pos _ (by simp [keyP])

/-- Claim C7 witness: an empty store; the record-absent hypothesis holds
and the creation scenario instantiates. -/
theorem C7_created_record_owner_matches_node_witness :
    findRecord "node-b" "ns" ⟨[], 1⟩ = none ∧
    (∃ r c', GetOrCreate (SetNasStatus.crdConfigOf "node-b" "ns" "uid-2") none ⟨[], 1⟩ =
        (Except.ok r, c') ∧
      r.owner = ⟨"v1", "Node", "node-b", "uid-2"⟩ ∧
      r.status = "" ∧
      findRecord "node-b" "ns" c' = some r) :=
  ⟨by decide,
    C7_created_record_owner_matches_node "node-b" "ns" "uid-2" ⟨[], 1⟩ (by decide)⟩

/-! ## Claim C1: every retry re-fetches before it writes -/

/-- Concatenating two fresh-write traces yields a fresh-write trace. -/
theorem FreshWrites_append {t1 t2 : List SSEvent} (h1 : FreshWrites t1)
    (h2 : FreshWrites t2) : FreshWrites (t1 ++ t2) := by
  induction h1 with
  | nil => simpa using h2
  | fetchOnly v t ht ih => simpa using FreshWrites.fetchOnly v _ ih
  | fetchWrite v t ht ih => simpa using FreshWrites.fetchWrite v _ ih

/-- One attempt of the retried closure fetches first and ties its
conditional write (if it gets that far) to the version it just fetched. -/
theorem setStatusAttempt_trace (config : NodeAllocationStateConfig) (status : String)
    (race : Option NasRecord) (mid : Cluster → Cluster) (c : Cluster) :
    FreshWrites (setStatusAttempt config status race mid c).2.2 := by
  unfold setStatusAttempt GetOrCreateT
  cases hg : GetOrCreate config race c with
  | mk res c1 =>
    cases res with
    | ok r =>
      simp only [UpdateStatusT]
      exact FreshWrites.fetchWrite r.resourceVersion [] FreshWrites.nil
    | error e => exact FreshWrites.nil

/-- The retry loop preserves trace freshness: the full trace is the
concatenation of per-attempt traces, each of which fetches anew. -/
theorem RetryOnConflict_trace
    (fn : Nat → Cluster → Except Err Unit × Cluster × List SSEvent)
    (hfn : ∀ k c0, FreshWrites (fn k c0).2.2) :
    ∀ (steps k : Nat) (c : Cluster), FreshWrites (RetryOnConflict fn steps k c).2.2 := by
  intro steps
  induction steps with
  | zero =>
    intro k c
    exact FreshWrites.nil
  | succ n ih =>
    intro k c
    have hft : FreshWrites (fn k c).2.2 := hfn k c
    unfold RetryOnConflict
    cases hr : fn k c with
    | mk res rest =>
      rw [hr] at hft
      cases rest with
      | mk c1 t =>
        cases res with
        | ok u => simpa using hft
        | error e =>
          cases e with
          | conflict =>
            exact FreshWrites_append (by simpa using hft) (ih (k + 1) c1)
          | alreadyExists => simpa using hft
          | notFound => simpa using hft

/-- Claim C1: every attempt of the conflict-retry loop in `SetStatus`
re-fetches the record before writing — in the full event trace of the
retried get-modify-write cycle, every conditional write is immediately
preceded by the fetch of its own attempt and is tied to exactly the
version that fetch returned, so no attempt issues a write with a record
version observed by an earlier attempt. -/
theorem C1_setstatus_refetches_before_every_write
    (config : NodeAllocationStateConfig) (status : String)
    (races : Nat → Option NasRecord) (mids : Nat → Cluster → Cluster)
    (steps : Nat) (c : Cluster) :
    FreshWrites (SetNasStatus.SetStatus config status races mids steps c).2.2 :=
  RetryOnConflict_trace _
    (fun k c0 => setStatusAttempt_trace config status (races k) (mids k) c0)
    steps 0 c

/-! ## Claim C6: case-insensitive validation, rejection before network -/

/-- Claim C6: status validation is case-insensitive and normalizing — any
spelling whose lower-case form equals the lower-cased canonical Ready
(resp. NotReady) value is normalized to the canonical value; every other
string is rejected with an unknown-status error, and in that case `RunE`
stops after `ValidateFlags`: the step trace contains only the validation
step — no client configuration, client construction, node fetch or
status write — and the cluster state is untouched. -/
theorem C6_validation_normalizes_and_rejects_before_network
    (s kubeconfigFlag : String) (w : SetNasStatus.CliWorld) :
    (toLowerStr s = toLowerStr NodeAllocationStateStatusReady →
      SetNasStatus.ValidateFlags s = Except.ok NodeAllocationStateStatusReady) ∧
    (toLowerStr s = toLowerStr NodeAllocationStateStatusNotReady →
      SetNasStatus.ValidateFlags s = Except.ok NodeAllocationStateStatusNotReady) ∧
    (toLowerStr s ≠ toLowerStr NodeAllocationStateStatusReady →
      toLowerStr s ≠ toLowerStr NodeAllocationStateStatusNotReady →
      SetNasStatus.ValidateFlags s = Except.error ("unknown status: " ++ s) ∧
      (SetNasStatus.RunE s kubeconfigFlag w).2.1 = [SetNasStatus.CliEvent.validateFlags] ∧
      (SetNasStatus.RunE s kubeconfigFlag w).2.2 = w.cluster) := by
  refine ⟨?_, ?_, ?_⟩
  · intro h
    unfold SetNasStatus.ValidateFlags
    rw [if_pos h]
  · intro h
    have hne : toLowerStr s ≠ toLowerStr NodeAllocationStateStatusReady := by
      rw [h]
      decide
    unfold SetNasStatus.ValidateFlags
    rw [if_neg hne, if_pos h]
  · intro h1 h2
    have hv : SetNasStatus.ValidateFlags s = Except.error ("unknown status: " ++ s) := by
      unfold SetNasStatus.ValidateFlags
      rw [if_neg h1, if_neg h2]
    refine ⟨hv, ?_, ?_⟩
    · simp [SetNasStatus.RunE, hv]
    · simp [SetNasStatus.RunE, hv]

/-- Claim C6 witness: `READY` and `notReady` normalize to the canonical
values; `bogus` is rejected and the run performs only the validation
step, leaving the cluster untouched. -/
theorem C6_validation_witness :
    SetNasStatus.ValidateFlags "READY" = Except.ok NodeAllocationStateStatusReady ∧
    SetNasStatus.ValidateFlags "notReady" = Except.ok NodeAllocationStateStatusNotReady ∧
    (SetNasStatus.ValidateFlags "bogus" = Except.error ("unknown status: " ++ "bogus") ∧
      (SetNasStatus.RunE "bogus" "" SetNasStatus.sampleWorld).2.1 =
        [SetNasStatus.CliEvent.validateFlags] ∧
      (SetNasStatus.RunE "bogus" "" SetNasStatus.sampleWorld).2.2 =
        SetNasStatus.sampleWorld.cluster) :=
  ⟨(C6_validation_normalizes_and_rejects_before_network "READY" ""
      SetNasStatus.sampleWorld).1 (by decide),
   (C6_validation_normalizes_and_rejects_before_network "notReady" ""
      SetNasStatus.sampleWorld).2.1 (by decide),
   (C6_validation_normalizes_and_rejects_before_network "bogus" ""
      SetNasStatus.sampleWorld).2.2 (by decide) (by decide)⟩

/-! ## Claim C10: a missing --status flag fails before any cluster access -/

/-- Claim C10: with `--status` not passed — so the flag holds its declared
default `""` — and no bound environment value for it, validation fails
with an unknown-status error and `RunE` returns at once: the step trace
holds only the validation step, so no cluster client is constructed and
nothing is read from or written to the cluster, whose state is returned
unchanged. -/
theorem C10_missing_status_flag_fails_before_any_cluster_access
    (kubeconfigFlag : String) (w : SetNasStatus.CliWorld)
    (env : String → Option String) (henv : env (envKey "status") = none) :
    SetNasStatus.RunE
        (flagValue (bindEnvToFlag env SetNasStatus.statusFlag)) kubeconfigFlag w =
      (Except.error (SetNasStatus.CliError.validate "unknown status: "),
        [SetNasStatus.CliEvent.validateFlags], w.cluster) := by
  have h1 : bindEnvToFlag env SetNasStatus.statusFlag = SetNasStatus.statusFlag := by
    unfold bindEnvToFlag
    rw [if_neg (by decide)]
    rw [show SetNasStatus.statusFlag.name = "status" from rfl]
    rw [henv]
  rw [h1]
  have hvf : SetNasStatus.ValidateFlags (flagValue SetNasStatus.statusFlag) =
      Except.error "unknown status: " := rfl
  simp [SetNasStatus.RunE, hvf]

/-- Claim C10 witness: the empty environment and the all-successful
world; the unbound-environment hypothesis holds by computation. -/
theorem C10_missing_status_flag_witness :
    ((fun _ => none : String → Option String) (envKey "status") = none) ∧
    SetNasStatus.RunE
        (flagValue (bindEnvToFlag (fun _ => none) SetNasStatus.statusFlag)) ""
        SetNasStatus.sampleWorld =
      (Except.error (SetNasStatus.CliError.validate "unknown status: "),
        [SetNasStatus.CliEvent.validateFlags], SetNasStatus.sampleWorld.cluster) :=
  ⟨rfl, C10_missing_status_flag_fails_before_any_cluster_access ""
    SetNasStatus.sampleWorld (fun _ => none) rfl⟩

/-! ## Claim C5: the status setter prints the error but exits 0 -/

/-- Claim C5 is contradicted by the code: `main` prints the failure but
never calls `os.Exit`, so it returns normally and the process exit status
is 0.  Evaluated here at a failing input (an invalid `--status` value):
the error is printed, yet the exit code is 0, not non-zero. -/
theorem C5_main_prints_error_but_exits_zero :
    SetNasStatus.mainSetNasStatus "bogus" "" SetNasStatus.sampleWorld =
      { printed := ["Error: validate flags: unknown status: bogus"], exitCode := 0 } := by
  decide

/-! ## Claim C9: the diagnostics HTTP surface gating -/

/-- Claim C9: the controller's diagnostics HTTP surface is disabled
entirely — no listener, no handlers — exactly when `--http-endpoint` is
empty; with a non-empty endpoint, the listener is opened on it, the
metrics handler is registered iff `--metrics-path` is non-empty and the
pprof handlers are registered iff `--pprof-path` is non-empty, each
independently of the other. -/
theorem C9_diagnostics_gating (e m p : String) :
    (e = "" →
      Controller.RunEDiagnostics e m p =
        { handlers := [], listenerAddr := none }) ∧
    (e ≠ "" →
      (Controller.RunEDiagnostics e m p).listenerAddr = some e ∧
      ((Controller.RunEDiagnostics e m p).handlers.any Controller.isMetricsHandler =
        true ↔ m ≠ "") ∧
      ((Controller.RunEDiagnostics e m p).handlers.any Controller.isPprofHandler =
        true ↔ p ≠ "")) := by
  constructor
  · intro he
    simp [Controller.RunEDiagnostics, he]
  · intro he
    refine ⟨?_, ?_, ?_⟩ <;>
      by_cases hm : m = "" <;> by_cases hp : p = "" <;>
        simp [Controller.RunEDiagnostics, Controller.SetupHTTPEndpoint, he, hm, hp,
          Controller.isMetricsHandler, Controller.isPprofHandler]

/-- Claim C9 witness: an empty endpoint disables everything; endpoint
`:8080` with a metrics path and no pprof path registers exactly the
metrics handler and opens the listener. -/
theorem C9_diagnostics_gating_witness :
    (Controller.RunEDiagnostics "" "/metrics" "/debug" =
      { handlers := [], listenerAddr := none }) ∧
    ((Controller.RunEDiagnostics ":8080" "/metrics" "").listenerAddr = some ":8080" ∧
      ((Controller.RunEDiagnostics ":8080" "/metrics" "").handlers.any
        Controller.isMetricsHandler = true ↔ ("/metrics" : String) ≠ "") ∧
      ((Controller.RunEDiagnostics ":8080" "/metrics" "").handlers.any
        Controller.isPprofHandler = true ↔ ("" : String) ≠ "")) :=
  ⟨(C9_diagnostics_gating "" "/metrics" "/debug").1 rfl,
   (C9_diagnostics_gating ":8080" "/metrics" "").2 (by decide)⟩
